import Mathlib

/-!
Verification of the command-grammar builder of `commands.rs`
(`src/parser/builder.rs`) and of the interactive read loop
(`examples/readline/main.rs`), against the natural-language specification.

The builder is embedded shallowly: the Rust structs `CommandTree`,
`Command` and `Parameter` become Lean structures, the fluent methods
become pure functions returning updated records, and `finalize` /
`build_command` / `build_*_parameter` become pure functions threading an
allocation counter.  `Rc` pointer identity is modelled by giving every
constructed node a fresh numeric `id`: two list positions hold "the same
reference-counted node" exactly when they hold nodes with the same `id`.

The node types (`RootNode`, `CommandNode`, the three parameter node
structs) and the constants `PRIORITY_DEFAUT`/`PRIORITY_PARAMETER` live in
`src/parser/nodes.rs`, which is not part of the available sources; they
are modelled from the specification (data-model section) together with the
constructor call shapes visible in `builder.rs`.  Likewise the matcher,
verifier and dispatcher (`Parser`) are modelled from the specification.
-/

set_option autoImplicit false

namespace Commands

/-- Embeds `ParameterKind` of `src/parser/builder.rs`: the tag selecting
which parameter node struct the builder creates. -/
inductive ParameterKind where
  | Flag
  | Named
  | Simple
deriving DecidableEq, Repr

/-- Modelled from the spec: `PRIORITY_DEFAULT` of the missing
`src/parser/nodes.rs`.  The spec fixes no concrete value, only that it is
the default priority of commands and flag parameters; the value matters to
no claim, only the distinction from `PRIORITY_PARAMETER`. -/
def PRIORITY_DEFAULT : Int := 0

/-- Modelled from the spec: `PRIORITY_PARAMETER` of the missing
`src/parser/nodes.rs`, the default priority of named and simple
parameters. -/
def PRIORITY_PARAMETER : Int := -10

/-- Modelled from the spec: a command handler, invoked by the dispatcher
with the parse's bound values.  Side effects are modelled as a transformer
of an abstract shell state. -/
def Handler : Type := List String → List String

/-- Modelled from the spec (data model) and the constructor call in
`CommandTree::build_flag_parameter` / `build_named_parameter` /
`build_simple_parameter`: the common shape of the three parameter node
structs of the missing `src/parser/nodes.rs`.  The three Rust structs are
folded into one structure with a `kind` tag; `id` models `Rc` pointer
identity; `repeat_marker` is the seventh constructor argument (always
`None` in the builder). -/
structure ParameterNode where
  id : Nat
  kind : ParameterKind
  name : String
  help_text : Option String
  hidden : Bool
  priority : Int
  aliases : List String
  repeatable : Bool
  repeat_marker : Option Unit
  required : Bool
deriving DecidableEq, Repr

/-- Modelled from the spec (data model) and the constructor call in
`CommandTree::build_command`: the `CommandNode` struct of the missing
`src/parser/nodes.rs`.  Its successors are exactly the parameter nodes the
builder pushes, so the successor list is typed as a parameter-node list;
`handler` is the sixth constructor argument. -/
structure CommandNode where
  id : Nat
  name : String
  help_text : Option String
  hidden : Bool
  priority : Int
  successors : List ParameterNode
  handler : Option Handler
  parameters : List ParameterNode

/-- Modelled from the spec: the `RootNode` of the missing
`src/parser/nodes.rs`; no name, help or priority, children are the
top-level commands. -/
structure RootNode where
  successors : List CommandNode

/-- Embeds the `Parameter` description struct of `src/parser/builder.rs`. -/
structure Parameter where
  hidden : Bool
  priority : Option Int
  name : String
  repeatable : Bool
  aliases : List String
  help_text : Option String
  required : Bool
  parameter_kind : ParameterKind
deriving DecidableEq, Repr

namespace Parameter

/-- Embeds `Parameter::new`. -/
def new (name : String) : Parameter :=
  { hidden := false
    priority := none
    name := name
    repeatable := false
    aliases := []
    help_text := none
    required := false
    parameter_kind := ParameterKind.Simple }

/-- Embeds `Parameter::hidden` (named apart to avoid clashing with the
field projection). -/
def set_hidden (p : Parameter) (hidden : Bool) : Parameter :=
  { p with hidden := hidden }

/-- Embeds `Parameter::priority` (named apart to avoid clashing with the
field projection). -/
def set_priority (p : Parameter) (priority : Int) : Parameter :=
  { p with priority := some priority }

/-- Embeds `Parameter::repeatable` (named apart to avoid clashing with
the field projection). -/
def set_repeatable (p : Parameter) (repeatable : Bool) : Parameter :=
  { p with repeatable := repeatable }

/-- Embeds `Parameter::alias` (named apart because `alias` is a Lean
keyword): pushes one alias onto the description's alias list. -/
def add_alias (p : Parameter) (a : String) : Parameter :=
  { p with aliases := p.aliases ++ [a] }

/-- Embeds `Parameter::help`. -/
def help (p : Parameter) (help_text : String) : Parameter :=
  { p with help_text := some help_text }

/-- Embeds `Parameter::required` (named apart to avoid clashing with the
field projection). -/
def set_required (p : Parameter) (required : Bool) : Parameter :=
  { p with required := required }

/-- Embeds `Parameter::kind`. -/
def kind (p : Parameter) (k : ParameterKind) : Parameter :=
  { p with parameter_kind := k }

/-- Embeds `Parameter::finalize` (a clone of the description). -/
def finalize (p : Parameter) : Parameter := p

end Parameter

/-- Embeds the `Command` description struct of `src/parser/builder.rs`. -/
structure Command where
  hidden : Bool
  priority : Int
  name : String
  help_text : Option String
  parameters : List Parameter
  wrapped_root : Option String
deriving DecidableEq, Repr

namespace Command

/-- Embeds `Command::new`. -/
def new (name : String) : Command :=
  { hidden := false
    priority := PRIORITY_DEFAULT
    name := name
    help_text := none
    parameters := []
    wrapped_root := none }

/-- Embeds `Command::hidden` (named apart to avoid clashing with the
field projection). -/
def set_hidden (c : Command) (hidden : Bool) : Command :=
  { c with hidden := hidden }

/-- Embeds `Command::priority` (named apart to avoid clashing with the
field projection). -/
def set_priority (c : Command) (priority : Int) : Command :=
  { c with priority := priority }

/-- Embeds `Command::help`. -/
def help (c : Command) (help_text : String) : Command :=
  { c with help_text := some help_text }

/-- Embeds `Command::parameter`: pushes one parameter description. -/
def parameter (c : Command) (p : Parameter) : Command :=
  { c with parameters := c.parameters ++ [p] }

/-- Embeds `Command::wraps`: records the path of the command this command
should wrap. -/
def wraps (c : Command) (wrapped_root : String) : Command :=
  { c with wrapped_root := some wrapped_root }

/-- Embeds `Command::finalize` (a clone of the description). -/
def finalize (c : Command) : Command := c

end Command

/-- Embeds the `CommandTree` struct of `src/parser/builder.rs`. -/
structure CommandTree where
  commands : List Command
deriving DecidableEq, Repr

namespace CommandTree

/-- Embeds `CommandTree::new`. -/
def new : CommandTree := { commands := [] }

/-- Embeds `CommandTree::command`: pushes one command description. -/
def command (t : CommandTree) (c : Command) : CommandTree :=
  { commands := t.commands ++ [c] }

/-- Embeds `CommandTree::build_flag_parameter`: constructs a
`FlagParameterNode` (note the literal empty alias list and the
`unwrap_or(PRIORITY_DEFAULT)` default), wraps it in one `Rc` (one fresh
`id`), and pushes that same node onto both the `parameters` and the
`successors` vectors. -/
def build_flag_parameter (p : Parameter)
    (parameters successors : List ParameterNode) (ctr : Nat) :
    List ParameterNode × List ParameterNode × Nat :=
  let node : ParameterNode :=
    { id := ctr
      kind := ParameterKind.Flag
      name := p.name
      help_text := p.help_text
      hidden := p.hidden
      priority := p.priority.getD PRIORITY_DEFAULT
      aliases := []
      repeatable := p.repeatable
      repeat_marker := none
      required := p.required }
  (parameters ++ [node], successors ++ [node], ctr + 1)

/-- Embeds `CommandTree::build_named_parameter` (default priority
`PRIORITY_PARAMETER`, aliases again the literal empty vector). -/
def build_named_parameter (p : Parameter)
    (parameters successors : List ParameterNode) (ctr : Nat) :
    List ParameterNode × List ParameterNode × Nat :=
  let node : ParameterNode :=
    { id := ctr
      kind := ParameterKind.Named
      name := p.name
      help_text := p.help_text
      hidden := p.hidden
      priority := p.priority.getD PRIORITY_PARAMETER
      aliases := []
      repeatable := p.repeatable
      repeat_marker := none
      required := p.required }
  (parameters ++ [node], successors ++ [node], ctr + 1)

/-- Embeds `CommandTree::build_simple_parameter` (default priority
`PRIORITY_PARAMETER`, aliases again the literal empty vector). -/
def build_simple_parameter (p : Parameter)
    (parameters successors : List ParameterNode) (ctr : Nat) :
    List ParameterNode × List ParameterNode × Nat :=
  let node : ParameterNode :=
    { id := ctr
      kind := ParameterKind.Simple
      name := p.name
      help_text := p.help_text
      hidden := p.hidden
      priority := p.priority.getD PRIORITY_PARAMETER
      aliases := []
      repeatable := p.repeatable
      repeat_marker := none
      required := p.required }
  (parameters ++ [node], successors ++ [node], ctr + 1)

/-- Embeds the per-parameter dispatch inside `CommandTree::build_command`:
the `match parameter.parameter_kind` selecting which `build_*_parameter`
helper runs, folded over the command's parameter vector. -/
def build_parameter_step (acc : List ParameterNode × List ParameterNode × Nat)
    (p : Parameter) : List ParameterNode × List ParameterNode × Nat :=
  match p.parameter_kind with
  | ParameterKind.Flag => build_flag_parameter p acc.1 acc.2.1 acc.2.2
  | ParameterKind.Named => build_named_parameter p acc.1 acc.2.1 acc.2.2
  | ParameterKind.Simple => build_simple_parameter p acc.1 acc.2.1 acc.2.2

/-- Embeds `CommandTree::build_command`: builds every parameter (each one
pushed onto both vectors), then constructs a `CommandNode` with those
successors, handler `None`, and those parameters.  The `wrapped_root`
field of the description is not consulted anywhere. -/
def build_command (c : Command) (ctr : Nat) : CommandNode × Nat :=
  let acc := c.parameters.foldl build_parameter_step ([], [], ctr)
  ({ id := acc.2.2
     name := c.name
     help_text := c.help_text
     hidden := c.hidden
     priority := c.priority
     successors := acc.2.1
     handler := none
     parameters := acc.1 }, acc.2.2 + 1)

/-- Embeds the loop of `CommandTree::finalize`: pushes one built command
node per stored command, in storage order. -/
def build_commands_step (acc : List CommandNode × Nat) (c : Command) :
    List CommandNode × Nat :=
  let built := build_command c acc.2
  (acc.1 ++ [built.1], built.2)

/-- Embeds `CommandTree::finalize`: builds every stored command and wraps
the resulting list in a `RootNode`.  It takes the tree by shared reference
(`&self`), which the pure embedding renders by not returning a tree. -/
def finalize (t : CommandTree) (ctr : Nat) : RootNode × Nat :=
  let acc := t.commands.foldl build_commands_step ([], ctr)
  ({ successors := acc.1 }, acc.2)

end CommandTree

/-- Erases the allocation identity of a parameter node, leaving its
structural content; used to state structural (as opposed to pointer)
equality of build results. -/
def ParameterNode.eraseId (p : ParameterNode) : ParameterNode :=
  { p with id := 0 }

/-- Erases the allocation identities of a command node and of all the
parameter nodes it references. -/
def CommandNode.eraseId (c : CommandNode) : CommandNode :=
  { c with
    id := 0
    successors := c.successors.map ParameterNode.eraseId
    parameters := c.parameters.map ParameterNode.eraseId }

/-- Erases the allocation identities of a whole built tree. -/
def RootNode.eraseId (r : RootNode) : RootNode :=
  { successors := r.successors.map CommandNode.eraseId }

/-- Modelled from the spec: the dispatcher of the missing parser module.
Execution invokes the handler attached to the matched command on the
current shell state; if no handler is attached, execution is a no-op and
the state is returned unchanged. -/
def execute (h : Option Handler) (s : List String) : List String :=
  match h with
  | none => s
  | some f => f s

/-- Modelled from the spec: a node sitting in the matcher's frontier,
either a command node (children of the root) or a parameter node
(successors of a matched command). -/
inductive FrontierNode where
  | cmd (c : CommandNode)
  | par (p : ParameterNode)

/-- Display name of a frontier node. -/
def FrontierNode.fname : FrontierNode → String
  | FrontierNode.cmd c => c.name
  | FrontierNode.par p => p.name

/-- Priority of a frontier node. -/
def FrontierNode.fpriority : FrontierNode → Int
  | FrontierNode.cmd c => c.priority
  | FrontierNode.par p => p.priority

/-- Hidden flag of a frontier node. -/
def FrontierNode.fhidden : FrontierNode → Bool
  | FrontierNode.cmd c => c.hidden
  | FrontierNode.par p => p.hidden

/-- Alias list of a frontier node (command nodes carry none). -/
def FrontierNode.faliases : FrontierNode → List String
  | FrontierNode.cmd _ => []
  | FrontierNode.par p => p.aliases

/-- Allocation identity of a frontier node, used to remove exactly the
matched node from the frontier. -/
def FrontierNode.fid : FrontierNode → Nat
  | FrontierNode.cmd c => c.id
  | FrontierNode.par p => p.id

/-- Modelled from the spec: the mutable parse state of one matcher
invocation — the current frontier, the ordered bindings (a repeatable
parameter contributes one entry per match, in encounter order), and the
matched command, if any (recorded by name, as the wrapper target is also a
path string). -/
structure ParseState where
  frontier : List FrontierNode
  bindings : List (String × String)
  matched : Option String

/-- Modelled from the spec: the two parse-time failures surfaced by the
matcher (the third spec failure, missing required parameters, belongs to
the verifier).  Each carries the failing token and the display names of
the relevant nodes, matching the two variants consumed in
`examples/readline/main.rs`. -/
inductive ParseError where
  | NoMatches (token : String) (acceptable : List String)
  | AmbiguousMatch (token : String) (tied : List String)
deriving DecidableEq, Repr

/-- Case-sensitive abbreviation test: does `tok` start the string `s`? -/
def abbrevOf (tok s : String) : Bool :=
  List.isPrefixOf tok.data s.data

/-- Modelled from the spec: frontier nodes whose literal name or any
alias equals the token exactly. -/
def exactMatches (frontier : List FrontierNode) (tok : String) :
    List FrontierNode :=
  frontier.filter (fun n => n.fname == tok || n.faliases.contains tok)

/-- Modelled from the spec: frontier nodes of which the token is a
case-sensitive abbreviation of the name or an alias. -/
def abbrevMatches (frontier : List FrontierNode) (tok : String) :
    List FrontierNode :=
  frontier.filter
    (fun n => abbrevOf tok n.fname || n.faliases.any (fun a => abbrevOf tok a))

/-- Modelled from the spec: the simple (positional) parameter nodes of
the frontier, which act as catch-all value acceptors ranked below literal
matches. -/
def catchAlls (frontier : List FrontierNode) : List FrontierNode :=
  frontier.filter (fun n =>
    match n with
    | FrontierNode.par p => p.kind == ParameterKind.Simple
    | FrontierNode.cmd _ => false)

/-- Modelled from the spec: the candidate set for one token — exact
literal matches first; failing those, unambiguous-abbreviation matches;
failing those, the catch-all simple parameters. -/
def candidatesFor (frontier : List FrontierNode) (tok : String) :
    List FrontierNode :=
  let ex := exactMatches frontier tok
  if ex.isEmpty then
    let ab := abbrevMatches frontier tok
    if ab.isEmpty then catchAlls frontier else ab
  else ex

/-- Ranking of suggestion listings: priority descending, then name
ascending. -/
def rankLE (a b : FrontierNode) : Bool :=
  if a.fpriority == b.fpriority then
    compare a.fname b.fname ≠ Ordering.gt
  else
    decide (b.fpriority < a.fpriority)

/-- Insertion step of the suggestion sort. -/
def insertByRank (n : FrontierNode) : List FrontierNode → List FrontierNode
  | [] => [n]
  | m :: ms => if rankLE n m then n :: m :: ms else m :: insertByRank n ms

/-- Insertion sort by `rankLE`. -/
def sortByRank : List FrontierNode → List FrontierNode
  | [] => []
  | n :: ns => insertByRank n (sortByRank ns)

/-- Modelled from the spec: the suggestion listing attached to a
`NoMatches` failure — all non-hidden frontier nodes, ordered by priority
descending then name ascending. -/
def acceptableOptions (frontier : List FrontierNode) : List String :=
  (sortByRank (frontier.filter (fun n => !n.fhidden))).map FrontierNode.fname

/-- Modelled from the spec: advancing the frontier past a matched
parameter node — a repeatable node stays eligible at its own level, a
non-repeatable node is removed (by identity). -/
def advanceFrontier (frontier : List FrontierNode) (p : ParameterNode) :
    List FrontierNode :=
  if p.repeatable then frontier
  else frontier.filter (fun n => n.fid ≠ p.id)

/-- The highest priority present in a candidate list. -/
def topPriority (c : FrontierNode) (cs : List FrontierNode) : Int :=
  cs.foldl (fun m n => max m n.fpriority) c.fpriority

/-- Modelled from the spec: the matcher loop, one token at a time.
Candidates are computed for the token; no candidate fails with
`NoMatches`, more than one candidate at the single highest priority fails
with `AmbiguousMatch`, otherwise the winner is bound (flags record
presence, named parameters consume the following token as value — failing
as `NoMatches` on an empty token when none remains — and simple
parameters consume the current token) and the frontier advances. -/
def matchTokens (st : ParseState) (tokens : List String) :
    Except ParseError ParseState :=
  match tokens with
  | [] => Except.ok st
  | tok :: rest =>
    match candidatesFor st.frontier tok with
    | [] => Except.error (ParseError.NoMatches tok (acceptableOptions st.frontier))
    | c :: cs =>
      let top := topPriority c cs
      match (c :: cs).filter (fun n => n.fpriority == top) with
      | [FrontierNode.cmd cn] =>
        matchTokens
          { frontier := cn.successors.map FrontierNode.par
            bindings := st.bindings
            matched := some cn.name } rest
      | [FrontierNode.par p] =>
        match p.kind with
        | ParameterKind.Flag =>
          matchTokens
            { frontier := advanceFrontier st.frontier p
              bindings := st.bindings ++ [(p.name, "true")]
              matched := st.matched } rest
        | ParameterKind.Named =>
          match rest with
          | [] =>
            Except.error (ParseError.NoMatches "" (acceptableOptions st.frontier))
          | v :: rest2 =>
            matchTokens
              { frontier := advanceFrontier st.frontier p
                bindings := st.bindings ++ [(p.name, v)]
                matched := st.matched } rest2
        | ParameterKind.Simple =>
          matchTokens
            { frontier := advanceFrontier st.frontier p
              bindings := st.bindings ++ [(p.name, tok)]
              matched := st.matched } rest
      | tied =>
        Except.error (ParseError.AmbiguousMatch tok (tied.map FrontierNode.fname))

/-- Modelled from the spec: `Parser::parse` over a frozen tree — a fresh
parse state whose frontier is the root's children, run over the token
sequence. -/
def parse (root : RootNode) (tokens : List String) :
    Except ParseError ParseState :=
  matchTokens
    { frontier := root.successors.map FrontierNode.cmd
      bindings := []
      matched := none } tokens

/-- One stage of the per-line pipeline of `examples/readline/main.rs`. -/
inductive Stage where
  | tokenizeStage
  | parseStage
  | verifyStage
  | executeStage
deriving DecidableEq, Repr

/-- The external results one line of input can produce: the tokenizer's
result, the parser's result on the produced tokens, and the verifier's
result.  Tokenizer, parser and verifier are outside the available sources
(modelled from the spec as opaque outcomes); the loop body only branches
on success or failure of each. -/
structure LineOutcome where
  tokenized : Except Unit (List String)
  parsed : List String → Except ParseError Unit
  verified : Except String Unit

/-- Embeds the body of the `while` loop of `examples/readline/main.rs`:
the ordered list of pipeline stages the loop body runs for one line.
Tokenization is always attempted; `parser.parse` runs only inside
`if let Ok(tokens) = tokenize(..)`; `parser.verify` runs only in the
`else` of `if let Err(err) = parser.parse(..)`; `parser.execute` runs
only in the `else` of `if let Err(err) = parser.verify()`. -/
def processLine (o : LineOutcome) : List Stage :=
  Stage.tokenizeStage ::
    match o.tokenized with
    | Except.error _ => []
    | Except.ok tokens =>
      Stage.parseStage ::
        match o.parsed tokens with
        | Except.error _ => []
        | Except.ok _ =>
          Stage.verifyStage ::
            match o.verified with
            | Except.error _ => []
            | Except.ok _ => [Stage.executeStage]

/-- Sample grammar of the spec's first scenario: one command `show` with
one optional simple parameter `target`. -/
def showTree : CommandTree :=
  CommandTree.command CommandTree.new
    ((Command.new "show").parameter (Parameter.new "target"))

/-- The frozen root of `showTree`. -/
def showRoot : RootNode := (CommandTree.finalize showTree 0).1

/-- Sample tree of the readline example: one bare command `show`. -/
def plainTree : CommandTree :=
  CommandTree.command CommandTree.new (Command.new "show")

/-- The single command node of `plainTree`. -/
def plainNode : CommandNode :=
  (CommandTree.build_command (Command.new "show") 0).1

/-- A sample line outcome in which every pipeline stage succeeds. -/
def happyLine : LineOutcome :=
  { tokenized := Except.ok ["show"]
    parsed := fun _ => Except.ok ()
    verified := Except.ok () }

namespace CommandTree

theorem build_params_fst_eq_snd (ps : List Parameter)
    (l : List ParameterNode) (k : Nat) :
    (ps.foldl build_parameter_step (l, l, k)).2.1
      = (ps.foldl build_parameter_step (l, l, k)).1 := by
  induction ps generalizing l k with
  | nil => rfl
  | cons p ps ih =>
    simp only [List.foldl_cons]
    cases hk : p.parameter_kind <;>
      simp only [build_parameter_step, hk, build_flag_parameter,
        build_named_parameter, build_simple_parameter] <;>
      exact ih _ _

theorem build_params_names_spec (ps : List Parameter)
    (parms succs : List ParameterNode) (k : Nat) :
    ((ps.foldl build_parameter_step (parms, succs, k)).1).map ParameterNode.name
      = parms.map ParameterNode.name ++ ps.map Parameter.name := by
  induction ps generalizing parms succs k with
  | nil => simp
  | cons p ps ih =>
    simp only [List.foldl_cons]
    cases hk : p.parameter_kind <;>
      simp only [build_parameter_step, hk, build_flag_parameter,
        build_named_parameter, build_simple_parameter] <;>
      rw [ih] <;> simp

theorem build_params_erase_congr (ps : List Parameter)
    (parms parms2 succs succs2 : List ParameterNode) (k k2 : Nat)
    (h : parms.map ParameterNode.eraseId = parms2.map ParameterNode.eraseId) :
    ((ps.foldl build_parameter_step (parms, succs, k)).1).map ParameterNode.eraseId
      = ((ps.foldl build_parameter_step (parms2, succs2, k2)).1).map
          ParameterNode.eraseId := by
  induction ps generalizing parms parms2 succs succs2 k k2 with
  | nil => simpa using h
  | cons p ps ih =>
    simp only [List.foldl_cons]
    cases hk : p.parameter_kind <;>
      simp only [build_parameter_step, hk, build_flag_parameter,
        build_named_parameter, build_simple_parameter] <;>
      exact ih _ _ _ _ _ _ (by simp [h, ParameterNode.eraseId])

theorem build_command_eraseId_const (c : Command) (k k2 : Nat) :
    ((build_command c k).1).eraseId = ((build_command c k2).1).eraseId := by
  simp only [build_command, CommandNode.eraseId, CommandNode.mk.injEq,
    build_params_fst_eq_snd, true_and, and_true]
  constructor <;> exact build_params_erase_congr _ _ _ _ _ _ _ rfl

theorem build_commands_eraseId_spec (cs : List Command)
    (acc : List CommandNode) (k : Nat) :
    ((cs.foldl build_commands_step (acc, k)).1).map CommandNode.eraseId
      = acc.map CommandNode.eraseId
        ++ cs.map (fun c => ((build_command c 0).1).eraseId) := by
  induction cs generalizing acc k with
  | nil => simp
  | cons c cs ih =>
    simp only [List.foldl_cons, build_commands_step]
    rw [ih]
    simp [build_command_eraseId_const c _ 0]

theorem build_commands_handler_none (cs : List Command)
    (acc : List CommandNode) (k : Nat)
    (hacc : ∀ m ∈ acc, m.handler = none) :
    ∀ n ∈ (cs.foldl build_commands_step (acc, k)).1, n.handler = none := by
  induction cs generalizing acc k with
  | nil => exact hacc
  | cons c cs ih =>
    simp only [List.foldl_cons, build_commands_step]
    refine ih _ _ ?_
    intro m hm
    rcases List.mem_append.1 hm with hm | hm
    · exact hacc m hm
    · rcases List.mem_singleton.1 hm with rfl
      rfl

end CommandTree

/-- C1: the claim says every alias declared through `Parameter::alias` is
carried into the node built by `CommandTree::finalize`.  The code drops
them: each `build_*_parameter` passes the literal empty vector as the
node's alias list, so a description whose alias list is `["t"]` builds a
node whose alias list is empty, whatever its kind.  This theorem evaluates
the builder at that failing input. -/
theorem aliases_dropped_by_builder :
    ((Parameter.new "test").add_alias "t").aliases = ["t"] ∧
    (((CommandTree.build_command ((Command.new "c").parameter
        (((Parameter.new "test").add_alias "t").kind ParameterKind.Flag)) 0).1).parameters).map
        ParameterNode.aliases = [[]] ∧
    (((CommandTree.build_command ((Command.new "c").parameter
        (((Parameter.new "test").add_alias "t").kind ParameterKind.Named)) 0).1).parameters).map
        ParameterNode.aliases = [[]] ∧
    (((CommandTree.build_command ((Command.new "c").parameter
        (((Parameter.new "test").add_alias "t").kind ParameterKind.Simple)) 0).1).parameters).map
        ParameterNode.aliases = [[]] :=
  ⟨rfl, rfl, rfl, rfl⟩

/-- C2: the claim says a command description on which `Command::wraps`
was called builds a wrapper node redirecting execution to the wrapped
path.  The code ignores `wrapped_root` entirely: `build_command` never
consults it, so building a command that wraps `"show"` produces exactly
the same ordinary command node as building the command without the
`wraps` call — the wrapped path is discarded.  This theorem evaluates the
builder at that failing input. -/
theorem wraps_ignored_by_builder :
    ((Command.new "status").wraps "show").wrapped_root = some "show" ∧
    CommandTree.build_command ((Command.new "status").wraps "show") 0
      = CommandTree.build_command (Command.new "status") 0 :=
  ⟨rfl, rfl⟩

/-- C3: for every command description, the built command node's successor
list is position-for-position the very same shared nodes as its parameter
list (the lists are equal, identities — modelled by `id` — included), and
the parameter list follows the declared parameters in name and order. -/
theorem command_successors_eq_parameters (c : Command) (k : Nat) :
    ((CommandTree.build_command c k).1).successors
      = ((CommandTree.build_command c k).1).parameters ∧
    (((CommandTree.build_command c k).1).parameters).map ParameterNode.name
      = c.parameters.map Parameter.name := by
  constructor
  · simp only [CommandTree.build_command]
    exact CommandTree.build_params_fst_eq_snd c.parameters [] k
  · simp only [CommandTree.build_command]
    simpa using CommandTree.build_params_names_spec c.parameters [] [] k

/-- C4: priority defaulting — a command built without an explicit
priority call gets `PRIORITY_DEFAULT`; a parameter without an explicit
priority gets `PRIORITY_DEFAULT` when its kind is `Flag` and
`PRIORITY_PARAMETER` when its kind is `Named` or `Simple`; and an
explicit priority set through the `priority` method is used verbatim for
both commands and parameters of every kind. -/
theorem priority_defaulting :
    (∀ (n : String) (k : Nat),
      ((CommandTree.build_command (Command.new n) k).1).priority
        = PRIORITY_DEFAULT) ∧
    (∀ (n : String) (v : Int) (k : Nat),
      ((CommandTree.build_command ((Command.new n).set_priority v) k).1).priority
        = v) ∧
    (∀ (cn n : String) (k : Nat),
      (((CommandTree.build_command ((Command.new cn).parameter
          ((Parameter.new n).kind ParameterKind.Flag)) k).1).parameters).map
          ParameterNode.priority = [PRIORITY_DEFAULT]) ∧
    (∀ (cn n : String) (k : Nat),
      (((CommandTree.build_command ((Command.new cn).parameter
          ((Parameter.new n).kind ParameterKind.Named)) k).1).parameters).map
          ParameterNode.priority = [PRIORITY_PARAMETER]) ∧
    (∀ (cn n : String) (k : Nat),
      (((CommandTree.build_command ((Command.new cn).parameter
          ((Parameter.new n).kind ParameterKind.Simple)) k).1).parameters).map
          ParameterNode.priority = [PRIORITY_PARAMETER]) ∧
    (∀ (cn n : String) (v : Int) (kd : ParameterKind) (k : Nat),
      (((CommandTree.build_command ((Command.new cn).parameter
          (((Parameter.new n).kind kd).set_priority v)) k).1).parameters).map
          ParameterNode.priority = [v]) := by
  refine ⟨fun n k => rfl, fun n v k => rfl, fun cn n k => rfl,
    fun cn n k => rfl, fun cn n k => rfl, fun cn n v kd k => ?_⟩
  cases kd <;> rfl

/-- C5: `finalize` produces a single root whose children are exactly one
built command node per added command, in the order the commands were
added (stated structurally, allocation identities erased, since each
`finalize` allocates fresh nodes). -/
theorem finalize_root_children (t : CommandTree) (k : Nat) :
    ((CommandTree.finalize t k).1).successors.length = t.commands.length ∧
    (((CommandTree.finalize t k).1).successors).map CommandNode.eraseId
      = t.commands.map (fun c => ((CommandTree.build_command c 0).1).eraseId) := by
  have h := CommandTree.build_commands_eraseId_spec t.commands [] k
  simp only [List.map_nil, List.nil_append] at h
  refine ⟨?_, by simpa only [CommandTree.finalize] using h⟩
  have hlen := congrArg List.length h
  simpa only [CommandTree.finalize, List.length_map] using hlen

/-- C6: the per-line pipeline of the readline example short-circuits:
`parse` runs exactly when tokenization succeeded, `verify` runs exactly
when tokenization and parsing succeeded, and `execute` runs exactly when
tokenization, parsing and verification all succeeded — so a failure at
any stage skips all later stages for that line. -/
theorem pipeline_short_circuit (o : LineOutcome) :
    (Stage.parseStage ∈ processLine o ↔
      ∃ tokens, o.tokenized = Except.ok tokens) ∧
    (Stage.verifyStage ∈ processLine o ↔
      ∃ tokens, o.tokenized = Except.ok tokens ∧
        o.parsed tokens = Except.ok ()) ∧
    (Stage.executeStage ∈ processLine o ↔
      ∃ tokens, o.tokenized = Except.ok tokens ∧
        o.parsed tokens = Except.ok () ∧ o.verified = Except.ok ()) := by
  obtain ⟨tk, pr, vf⟩ := o
  cases tk with
  | error e => simp [processLine]
  | ok tokens =>
    cases hp : pr tokens with
    | error e => simp [processLine, hp]
    | ok u =>
      cases vf with
      | error e => simp [processLine, hp]
      | ok v => simp [processLine, hp]

/-- C7: parsing is deterministic — two runs of `parse` over the same
frozen tree and the same token sequence produce the same result, identical
bindings on success and the identical error on failure. -/
theorem parse_deterministic (root : RootNode) (tokens : List String)
    (r₁ r₂ : Except ParseError ParseState)
    (h₁ : parse root tokens = r₁) (h₂ : parse root tokens = r₂) :
    r₁ = r₂ := by
  rw [← h₁, ← h₂]

/-- Witness for C7: both runs of `parse` over the sample grammar on the
tokens `show eth0` evaluate to the same successful state binding `target`
to `eth0`. -/
theorem parse_deterministic_witness :
    (Except.ok { frontier := [], bindings := [("target", "eth0")], matched := some "show" }
        : Except ParseError ParseState)
      = Except.ok { frontier := [], bindings := [("target", "eth0")], matched := some "show" } :=
  parse_deterministic showRoot ["show", "eth0"] _ _ rfl rfl

/-- C8: every command node produced by `CommandTree::finalize` has
handler slot `None` (the builder never attaches one), so dispatching any
matched command built through this builder is a no-op on the shell
state. -/
theorem built_commands_never_dispatch (t : CommandTree) (k : Nat)
    (n : CommandNode) (h : n ∈ ((CommandTree.finalize t k).1).successors)
    (s : List String) :
    n.handler = none ∧ execute n.handler s = s := by
  have hn : n.handler = none := by
    refine CommandTree.build_commands_handler_none t.commands [] k ?_ n ?_
    · intro m hm
      simp at hm
    · simpa only [CommandTree.finalize] using h
  rw [hn]
  exact ⟨rfl, rfl⟩

/-- Witness for C8: the single node of the sample tree with the bare
command `show` has no handler and executing it leaves the shell state
unchanged. -/
theorem built_commands_never_dispatch_witness :
    plainNode.handler = none ∧ execute plainNode.handler ["line"] = ["line"] :=
  built_commands_never_dispatch plainTree 0 plainNode (List.Mem.head _) ["line"]

/-- C9: `Parameter::new` yields a description with kind `Simple`, hidden
false, required false, repeatable false, empty alias list, no help text
and no priority override; and a parameter whose kind is never set through
`Parameter::kind` is built as a simple (positional) parameter node. -/
theorem parameter_new_defaults (n : String) :
    (Parameter.new n).parameter_kind = ParameterKind.Simple ∧
    (Parameter.new n).hidden = false ∧
    (Parameter.new n).required = false ∧
    (Parameter.new n).repeatable = false ∧
    (Parameter.new n).aliases = [] ∧
    (Parameter.new n).help_text = none ∧
    (Parameter.new n).priority = none ∧
    ∀ (cn : String) (k : Nat),
      (((CommandTree.build_command ((Command.new cn).parameter
          (Parameter.new n)) k).1).parameters).map ParameterNode.kind
        = [ParameterKind.Simple] :=
  ⟨rfl, rfl, rfl, rfl, rfl, rfl, rfl, fun _ _ => rfl⟩

/-- C10: `finalize` does not consume or mutate the tree — two `finalize`
calls on the same tree produce structurally equal roots (allocation
identities aside), and a command added after a `finalize` appears, built,
at the end of a subsequent `finalize`'s root children. -/
theorem finalize_frame (t : CommandTree) (c : Command) (k k2 : Nat) :
    ((CommandTree.finalize t k).1).eraseId
      = ((CommandTree.finalize t k2).1).eraseId ∧
    (((CommandTree.finalize (t.command c) k).1).eraseId).successors
      = (((CommandTree.finalize t k).1).eraseId).successors
        ++ [((CommandTree.build_command c 0).1).eraseId] := by
  constructor
  · simp only [CommandTree.finalize, RootNode.eraseId, RootNode.mk.injEq]
    rw [CommandTree.build_commands_eraseId_spec,
      CommandTree.build_commands_eraseId_spec]
  · simp only [CommandTree.finalize, RootNode.eraseId, CommandTree.command]
    rw [CommandTree.build_commands_eraseId_spec,
      CommandTree.build_commands_eraseId_spec]
    simp

end Commands
